import Mathlib

/-!
Verification of the templaters module of sqlfluff (src/sqlfluff/templaters.py).

The module defines three templaters: a raw (identity) templater, a python
templater substituting format-string placeholders from a merged context, and a
jinja templater that additionally extracts configured macros, statically finds
undeclared variables and maps them to source positions before rendering.

The embedding below translates the module into Lean.  Behaviour of external
libraries (the jinja2 engine, the stdlib literal parser and str.format) is
modelled: jinja2 abstractly as a record of functions, the literal parser and
format strings concretely as executable parsers restricted to the literal
forms documented for them.
-/

mutual
/-- Models a dynamically typed Python value as it occurs in templating
contexts: strings, integers, booleans, None and lists of values.  Lists are
given by the mutually defined PyValueList so that every recursion over values
is structural. -/
inductive PyValue where
  | str (s : String)
  | int (n : Int)
  | bool (b : Bool)
  | none
  | list (vs : PyValueList)
inductive PyValueList where
  | nil
  | cons (hd : PyValue) (tl : PyValueList)
end

/-- Number of elements of a modelled Python list. -/
def PyValueList.length : PyValueList → Nat
  | PyValueList.nil => 0
  | PyValueList.cons _ tl => 1 + PyValueList.length tl

/-- Modelled from the spec: the Position Marker of the parser module (not under
src), an immutable value with an optional owner, 1-based line, 1-based column
and absolute character offset.  The source constructs it positionally as
FilePositionMarker(None, line_no, pos, charpos). -/
structure FilePositionMarker where
  statement_index : Option Nat
  line : Nat
  col : Nat
  charpos : Nat
deriving DecidableEq

/-- Modelled from the spec: the SQLTemplaterError of the errors module (not
under src), a Violation record carrying a human readable message and an
optional position; it doubles as the exception raised by the templaters. -/
structure SQLTemplaterError where
  msg : String
  pos : Option FilePositionMarker
deriving DecidableEq

/-- The exceptions that can escape (or be caught inside) the embedded code:
a raised SQLTemplaterError, an exception propagating out of the jinja2
library, and the stdlib KeyError / ValueError / IndexError.  The unmodeled
constructor marks inputs outside the modelled subset of stdlib behaviour. -/
inductive PyExc where
  | templaterError (e : SQLTemplaterError)
  | jinjaError (msg : String)
  | keyError (key : String)
  | valueError (msg : String)
  | indexError (msg : String)
  | unmodeled (msg : String)
deriving DecidableEq

/-- Skips the whitespace accepted around Python literals. -/
def skipWs : List Char → List Char
  | [] => []
  | c :: rest =>
    if c == ' ' || c == '\t' || c == '\n' || c == '\r' then skipWs rest
    else c :: rest

/-- Numeric value of a list of decimal digits. -/
def digitsVal (ds : List Char) : Nat :=
  ds.foldl (fun a c => a * 10 + (c.toNat - 48)) 0

/-- Models the integer-token rule of the Python literal grammar: a nonempty
digit run without a leading zero; a following letter, dot, exponent letter or
underscore means the token is not a plain integer (floats and separators are
outside the modelled subset and are rejected). -/
def parseNum (cs : List Char) : Option (Nat × List Char) :=
  let ds := cs.takeWhile Char.isDigit
  let rest := cs.dropWhile Char.isDigit
  if ds.isEmpty then Option.none
  else if ds.length > 1 && ds.head? == Option.some '0' then Option.none
  else
    match rest with
    | [] => Option.some (digitsVal ds, [])
    | c :: _ =>
      if c == '.' || c == 'e' || c == 'E' || c == '_' || c.isAlpha then Option.none
      else Option.some (digitsVal ds, rest)

/-- Models a quoted Python string literal without escape sequences (a
backslash or newline in the body is outside the modelled subset). -/
def parseQuoted (q : Char) (cs : List Char) : Option (PyValue × List Char) :=
  let body := cs.takeWhile (fun c => c != q && c != '\\' && c != '\n')
  match cs.dropWhile (fun c => c != q && c != '\\' && c != '\n') with
  | c :: rest => if c == q then Option.some (PyValue.str (String.mk body), rest) else Option.none
  | [] => Option.none

/-- Models the stdlib ast.literal_eval parser (external library), restricted
to the literal forms the spec names: integers (with unary sign), the keyword
literals True, False and None, quoted strings, and bracketed lists with
optional trailing comma.  Anything else, in particular bare names such as
true or false, fails exactly as literal_eval raises ValueError or
SyntaxError.  The Bool argument selects between parsing one literal (true)
and parsing the comma separated elements after an opening bracket (false);
the Nat argument is recursion fuel, always called with more fuel than the
input length so that it never runs out. -/
def litP : Nat → Bool → List Char → Option (PyValue × List Char)
  | 0, _, _ => Option.none
  | fuel + 1, true, cs0 =>
    match skipWs cs0 with
    | [] => Option.none
    | '[' :: rest =>
      (match skipWs rest with
       | ']' :: rest2 => Option.some (PyValue.list PyValueList.nil, rest2)
       | _ =>
         match litP fuel false rest with
         | Option.some (PyValue.list vs, rest2) => Option.some (PyValue.list vs, rest2)
         | _ => Option.none)
    | '-' :: rest =>
      (match parseNum (skipWs rest) with
       | Option.some (n, rest2) => Option.some (PyValue.int (-(n : Int)), rest2)
       | Option.none => Option.none)
    | '+' :: rest =>
      (match parseNum (skipWs rest) with
       | Option.some (n, rest2) => Option.some (PyValue.int (n : Int), rest2)
       | Option.none => Option.none)
    | '\x27' :: rest => parseQuoted '\x27' rest
    | '"' :: rest => parseQuoted '"' rest
    | c :: rest =>
      if c.isDigit then
        match parseNum (c :: rest) with
        | Option.some (n, rest2) => Option.some (PyValue.int (n : Int), rest2)
        | Option.none => Option.none
      else if ['T', 'r', 'u', 'e'].isPrefixOf (c :: rest) then
        Option.some (PyValue.bool true, (c :: rest).drop 4)
      else if ['F', 'a', 'l', 's', 'e'].isPrefixOf (c :: rest) then
        Option.some (PyValue.bool false, (c :: rest).drop 5)
      else if ['N', 'o', 'n', 'e'].isPrefixOf (c :: rest) then
        Option.some (PyValue.none, (c :: rest).drop 4)
      else Option.none
  | fuel + 1, false, cs =>
    match litP fuel true cs with
    | Option.none => Option.none
    | Option.some (v, rest) =>
      match skipWs rest with
      | ',' :: rest2 =>
        (match skipWs rest2 with
         | ']' :: rest3 => Option.some (PyValue.list (PyValueList.cons v PyValueList.nil), rest3)
         | _ =>
           match litP fuel false rest2 with
           | Option.some (PyValue.list vs, rest3) => Option.some (PyValue.list (PyValueList.cons v vs), rest3)
           | _ => Option.none)
      | ']' :: rest2 => Option.some (PyValue.list (PyValueList.cons v PyValueList.nil), rest2)
      | _ => Option.none

/-- Models ast.literal_eval on a whole string: parse one literal and require
only whitespace to remain; a parse failure is reported as Option.none, which
stands for the ValueError or SyntaxError that literal_eval raises. -/
def litEval (s : String) : Option PyValue :=
  match litP (2 * s.length + 2) true s.data with
  | Option.some (v, rest) => if (skipWs rest).isEmpty then Option.some v else Option.none
  | Option.none => Option.none

/-- PythonTemplateInterface.infer_type: convert a string to a more specific
built-in value via the literal parser, returning the input unchanged when
parsing fails.  Calling literal_eval on a non-string argument raises
ValueError, which the except clause also catches, so non-string values pass
through unchanged. -/
def infer_type (v : PyValue) : PyValue :=
  match v with
  | PyValue.str s =>
    (match litEval s with
     | Option.some v2 => v2
     | Option.none => PyValue.str s)
  | v2 => v2

/-- A templating context: the mapping behaviour of a Python dict from
variable names to values. -/
abbrev Ctx := String → Option PyValue

def emptyCtx : Ctx := fun _ => Option.none

/-- The mapping of a Python dict built from an association list. -/
def ctxOfList (l : List (String × PyValue)) : Ctx := fun k => l.lookup k

/-- Models dict.update at the level of the mapping: keys of the second dict
win over the first. -/
def dictUpdate (d e : Ctx) : Ctx := fun k =>
  match e k with
  | Option.some v => Option.some v
  | Option.none => d k

/-- Models item assignment d[k] = v at the level of the mapping. -/
def setK (d : Ctx) (k : String) (v : PyValue) : Ctx :=
  fun k2 => if k2 = k then Option.some v else d k2

/-- Models d[k] on a key known to be present (the embedded code only reads
keys it has just written). -/
def pyGet (d : Ctx) (k : String) : PyValue := (d k).getD PyValue.none

/-- The keys of a dict given as an association list, in insertion order. -/
def keysOf (l : List (String × PyValue)) : List String := l.map Prod.fst

/-- One iteration of the type-inference loop of get_context: replace the
value under key k of the live context by its inferred type. -/
def inferStep (lc : Ctx) (k : String) : Ctx := setK lc k (infer_type (pyGet lc k))

/-- The FluffConfig interface the templaters consume: a key-path lookup
returning a config section as an ordered mapping, or nothing. -/
structure FluffConfig where
  get_section : List String → Option (List (String × PyValue))

/-- The class attribute templater_selector = "templater". -/
def templater_selector : String := "templater"

/-- PythonTemplateInterface.__init__: default_context = dict(test_value="__test__"). -/
def default_context : List (String × PyValue) := [("test_value", PyValue.str "__test__")]

/-- The state of a python (or jinja) templater instance: the caller supplied
override context, already defaulted to the empty dict by __init__. -/
structure PythonTemplateInterface where
  override_context : List (String × PyValue)

/-- PythonTemplateInterface.__init__ with the `override_context or ∅` defaulting. -/
def PythonTemplateInterface.init (override_context : Option (List (String × PyValue))) : PythonTemplateInterface :=
  ⟨override_context.getD []⟩

/-- PythonTemplateInterface.get_context: read the context section for the
given templater name, merge default, loaded and override dicts in that order,
then, for every key of the loaded section, replace the merged value under
that key by its inferred type. -/
def get_context (name : String) (self : PythonTemplateInterface) (config : Option FluffConfig) : Ctx :=
  let loaded_context : List (String × PyValue) :=
    match config with
    | Option.some c => (c.get_section [templater_selector, name, "context"]).getD []
    | Option.none => []
  let live_context :=
    dictUpdate (dictUpdate (dictUpdate emptyCtx (ctxOfList default_context)) (ctxOfList loaded_context))
      (ctxOfList self.override_context)
  (keysOf loaded_context).foldl inferStep live_context

/-- One parsed piece of a format string: a literal chunk or a named
replacement field. -/
inductive FmtPart where
  | lit (s : String)
  | field (name : String)
deriving DecidableEq

/-- Whether a replacement field text is a plain keyword-argument identifier;
other field forms (positional, attribute access, conversions, format specs)
are outside the modelled subset of str.format. -/
def isIdentName (cs : List Char) : Bool :=
  match cs with
  | [] => false
  | c :: rest => (c.isAlpha || c == '_') && rest.all (fun d => d.isAlpha || d.isDigit || d == '_')

/-- Prepends a literal chunk to a successful parse. -/
def consLit (s : String) (r : Except PyExc (List FmtPart)) : Except PyExc (List FmtPart) :=
  match r with
  | Except.ok ps => Except.ok (FmtPart.lit s :: ps)
  | Except.error e => Except.error e

/-- Models the stdlib format-string scanner (external library): doubled
braces are escapes, a brace-delimited field names a keyword argument, a
stray closing brace or an unterminated field is a ValueError, and field
forms beyond plain identifiers are reported as outside the modelled
subset.  The Nat argument is recursion fuel, always called with more fuel
than the input length. -/
def parseFmtAux : Nat → List Char → Except PyExc (List FmtPart)
  | 0, _ => Except.error (PyExc.unmodeled "format parse fuel exhausted")
  | _ + 1, [] => Except.ok []
  | fuel + 1, '\x7b' :: '\x7b' :: rest => consLit "\x7b" (parseFmtAux fuel rest)
  | fuel + 1, '\x7d' :: '\x7d' :: rest => consLit "\x7d" (parseFmtAux fuel rest)
  | fuel + 1, '\x7b' :: rest =>
    (let fld := rest.takeWhile (fun c => c != '\x7d')
     match rest.dropWhile (fun c => c != '\x7d') with
     | _ :: rest2 =>
       if isIdentName fld then
         match parseFmtAux fuel rest2 with
         | Except.ok ps => Except.ok (FmtPart.field (String.mk fld) :: ps)
         | Except.error e => Except.error e
       else Except.error (PyExc.unmodeled "format field outside modelled subset")
     | [] => Except.error (PyExc.valueError "expected closing brace before end of string"))
  | _ + 1, '\x7d' :: _ => Except.error (PyExc.valueError "single closing brace encountered in format string")
  | fuel + 1, c :: rest => consLit (String.singleton c) (parseFmtAux fuel rest)

mutual
/-- Models str(v) for substitution into format output: strings verbatim,
integers in decimal, True/False/None keywords, lists in bracketed form with
repr of the elements (so strings inside a list are quoted), as Python does. -/
def pyStr : PyValue → String
  | PyValue.str s => s
  | PyValue.int n => toString n
  | PyValue.bool b => if b then "True" else "False"
  | PyValue.none => "None"
  | PyValue.list vs => "[" ++ pyReprElems vs ++ "]"
def pyReprV : PyValue → String
  | PyValue.str s => "\x27" ++ s ++ "\x27"
  | PyValue.int n => toString n
  | PyValue.bool b => if b then "True" else "False"
  | PyValue.none => "None"
  | PyValue.list vs => "[" ++ pyReprElems vs ++ "]"
def pyReprElems : PyValueList → String
  | PyValueList.nil => ""
  | PyValueList.cons v PyValueList.nil => pyReprV v
  | PyValueList.cons v tl => pyReprV v ++ ", " ++ pyReprElems tl
end

/-- Substitutes parsed format parts left to right, accumulating output and
raising KeyError at the first field whose name is absent from the context,
exactly as str.format does. -/
def renderParts (ctx : Ctx) : List FmtPart → String → Except PyExc String
  | [], acc => Except.ok acc
  | FmtPart.lit l :: ps, acc => renderParts ctx ps (acc ++ l)
  | FmtPart.field f :: ps, acc =>
    match ctx f with
    | Option.some v => renderParts ctx ps (acc ++ pyStr v)
    | Option.none => Except.error (PyExc.keyError f)

/-- Models in_str.format(**ctx): scan the format string and substitute each
named field from the context. -/
def pyFormat (s : String) (ctx : Ctx) : Except PyExc String :=
  match parseFmtAux (s.length + 1) s.data with
  | Except.ok ps => renderParts ctx ps ""
  | Except.error e => Except.error e

/-- Extracts the name of a field part. -/
def fieldName? : FmtPart → Option String
  | FmtPart.field f => Option.some f
  | FmtPart.lit _ => Option.none

/-- The field names of a format string, in order, when it scans cleanly
within the modelled subset. -/
def pyFields (s : String) : Option (List String) :=
  match parseFmtAux (s.length + 1) s.data with
  | Except.ok ps => Option.some (ps.filterMap fieldName?)
  | Except.error _ => Option.none

/-- PythonTemplateInterface.process: build the live context, substitute the
format string, and convert a KeyError into a raised SQLTemplaterError whose
message embeds str(err) (the repr-quoted missing key) and a configuration
hint; other exceptions propagate unchanged. -/
def PythonTemplateInterface.process (self : PythonTemplateInterface) (in_str : String) (config : Option FluffConfig) : Except PyExc (String × List SQLTemplaterError) :=
  let live_context := get_context "python" self config
  match pyFormat in_str live_context with
  | Except.ok s => Except.ok (s, [])
  | Except.error (PyExc.keyError k) =>
    Except.error (PyExc.templaterError
      { msg := "Failure in Python templating: \x27" ++ k ++ "\x27. Have you configured your variables?"
        pos := Option.none })
  | Except.error e => Except.error e

/-- RawTemplateInterface.process: return the input string with no violations. -/
def RawTemplateInterface.process (in_str : String) (_fname : Option String) (_config : Option FluffConfig) : String × List SQLTemplaterError :=
  (in_str, [])

/-- The three registered templater classes, ordered along their inheritance
chain: PythonTemplateInterface subclasses RawTemplateInterface and
JinjaTemplateInterface subclasses PythonTemplateInterface. -/
inductive TemplaterVariant where
  | raw
  | python
  | jinja
deriving DecidableEq

/-- Whether the first class is the second class or derives from it (the
isinstance test along the chain). -/
def TemplaterVariant.isSubclass : TemplaterVariant → TemplaterVariant → Bool
  | TemplaterVariant.raw, TemplaterVariant.raw => true
  | TemplaterVariant.raw, _ => false
  | TemplaterVariant.python, TemplaterVariant.raw => true
  | TemplaterVariant.python, TemplaterVariant.python => true
  | TemplaterVariant.python, TemplaterVariant.jinja => false
  | TemplaterVariant.jinja, _ => true

/-- Depth of a class in the inheritance chain. -/
def TemplaterVariant.rank : TemplaterVariant → Nat
  | TemplaterVariant.raw => 0
  | TemplaterVariant.python => 1
  | TemplaterVariant.jinja => 2

/-- A templater instance as the equality method sees it: its class plus the
constructor arguments it was built with (which the method never reads). -/
structure TemplaterInstance where
  cls : TemplaterVariant
  ctor_kwargs : List (String × PyValue)

/-- RawTemplateInterface.__eq__ (inherited by all variants): self == other
holds exactly when other is an instance of the class of self. -/
def templater_eq (self other : TemplaterInstance) : Bool :=
  other.cls.isSubclass self.cls

mutual
/-- A node of the jinja2 template syntax tree as the undefined-variable crawl
sees it: a Name node carries the referenced identifier and the 1-based line
number of its metadata and has no children; every other node only contributes
its ordered children. -/
inductive JNode where
  | name (n : String) (lineno : Nat)
  | node (children : JNodeForest)
inductive JNodeForest where
  | nil
  | cons (hd : JNode) (tl : JNodeForest)
end

/-- Models raw.split over the newline character: the list of lines of a
string, without the newline characters, with one empty trailing entry when
the string ends in a newline and a single empty entry for the empty string. -/
def splitNlChars : List Char → List (List Char)
  | [] => [[]]
  | c :: rest =>
    if c == '\n' then [] :: splitNlChars rest
    else
      match splitNlChars rest with
      | [] => [[c]]
      | l :: ls => (c :: l) :: ls

/-- The lines of a string, as raw.split produces them. -/
def splitNl (s : String) : List String := (splitNlChars s.data).map (fun l => String.mk l)

/-- Index of the first occurrence of needle in the haystack list, if any. -/
def listFind (needle : List Char) : List Char → Option Nat
  | [] => if needle.isPrefixOf [] then Option.some 0 else Option.none
  | c :: t =>
    if needle.isPrefixOf (c :: t) then Option.some 0
    else (listFind needle t).map (fun i => i + 1)

/-- Models line.index(name): 0-based index of the first occurrence of the
needle substring, or nothing where Python raises ValueError. -/
def strFind (hay needle : String) : Option Nat := listFind needle.data hay.data

/-- The body of the Name case of _crawl_tree: look up the line named by the
node metadata, find the first occurrence of the identifier in it, and build
the violation with 1-based column and the absolute character position that
adds one per preceding line for its newline.  A missing line is an
IndexError and a missing occurrence a ValueError, both propagating. -/
def crawlName (raw : String) (n : String) (line_no : Nat) : Except PyExc SQLTemplaterError :=
  match (splitNl raw).get? (line_no - 1) with
  | Option.none => Except.error (PyExc.indexError "list index out of range")
  | Option.some line =>
    match strFind line n with
    | Option.none => Except.error (PyExc.valueError "substring not found")
    | Option.some idx =>
      Except.ok
        { msg := "Undefined jinja template variable: \x27" ++ n ++ "\x27"
          pos := Option.some
            { statement_index := Option.none
              line := line_no
              col := idx + 1
              charpos := (((splitNl raw).take (line_no - 1)).map (fun l => l.length + 1)).sum + (idx + 1) } }

mutual
/-- JinjaTemplateInterface.process._crawl_tree: traverse the tree, yielding
the violations of the children first and then, when the node is a Name node
whose identifier is among the searched variable names, one violation for the
node itself. -/
def crawlTree (raw : String) (vars : List String) : JNode → Except PyExc (List SQLTemplaterError)
  | JNode.name n line_no =>
    if n ∈ vars then
      match crawlName raw n line_no with
      | Except.ok v => Except.ok [v]
      | Except.error e => Except.error e
    else Except.ok []
  | JNode.node cs => crawlForest raw vars cs
/-- The crawl over an ordered list of child nodes, concatenating results and
propagating the first exception. -/
def crawlForest (raw : String) (vars : List String) : JNodeForest → Except PyExc (List SQLTemplaterError)
  | JNodeForest.nil => Except.ok []
  | JNodeForest.cons t ts =>
    match crawlTree raw vars t with
    | Except.error e => Except.error e
    | Except.ok a =>
      match crawlForest raw vars ts with
      | Except.error e => Except.error e
      | Except.ok b => Except.ok (a ++ b)
end

mutual
/-- The reference occurrences the crawl visits: every Name node whose
identifier lies in the given variable list, with its line number, in
traversal order. -/
def nameOccs (vars : List String) : JNode → List (String × Nat)
  | JNode.name n line_no => if n ∈ vars then [(n, line_no)] else []
  | JNode.node cs => nameOccsForest vars cs
/-- Occurrences across an ordered list of child nodes. -/
def nameOccsForest (vars : List String) : JNodeForest → List (String × Nat)
  | JNodeForest.nil => []
  | JNodeForest.cons t ts => nameOccs vars t ++ nameOccsForest vars ts
end

/-- The violation the crawl produces for one reference occurrence, written as
a total function of the raw source and the occurrence. -/
def expectedV (raw : String) : String × Nat → SQLTemplaterError
  | (n, line_no) =>
    { msg := "Undefined jinja template variable: \x27" ++ n ++ "\x27"
      pos := Option.some
        { statement_index := Option.none
          line := line_no
          col := ((strFind (((splitNl raw).get? (line_no - 1)).getD "") n).getD 0) + 1
          charpos := (((splitNl raw).take (line_no - 1)).map (fun l => l.length + 1)).sum
            + (((strFind (((splitNl raw).get? (line_no - 1)).getD "") n).getD 0) + 1) } }

/-- Modelled from the spec: the behaviour the jinja2 library (external to the
repository) contributes to the engine templater, as a record of functions.
fromString compiles a template (the source keeps only success or the raised
syntax error), parse produces the syntax tree, findUndeclared is
meta.find_undeclared_variables, extractTemplateMacros is the module-dict
macro collection of _extract_macros_from_template on one configured
template string, and render renders the named template source under the
installed macro globals and a context, or raises.  Mac is the opaque type of
a macro callable. -/
structure Jinja2 (Mac : Type) where
  fromString : String → Except String Unit
  parse : String → Except String JNode
  findUndeclared : JNode → List String
  extractTemplateMacros : PyValue → Except String (List (String × Mac))
  render : List (String × Mac) → String → Ctx → Except String String

/-- Models dict.update on association lists: keys of the second dict replace
values in place, new keys are appended. -/
def listDictUpdate {α : Type} (d e : List (String × α)) : List (String × α) :=
  d.map (fun p =>
    match e.lookup p.1 with
    | Option.some v => (p.1, v)
    | Option.none => p)
  ++ e.filter (fun q => (d.lookup q.1).isNone)

/-- The iteration of _extract_macros_from_config over the values of the
loaded macros section: extract the macros of each configured template string
and merge them, letting any extraction exception propagate. -/
def loadMacros {Mac : Type} (J : Jinja2 Mac) : List (String × PyValue) → List (String × Mac) → Except String (List (String × Mac))
  | [], acc => Except.ok acc
  | (_, v) :: rest, acc =>
    match J.extractTemplateMacros v with
    | Except.ok m => loadMacros J rest (listDictUpdate acc m)
    | Except.error e => Except.error e

/-- JinjaTemplateInterface._extract_macros_from_config: read the macros
section for the jinja templater (empty when absent or with no config) and
collect the macros of every configured value. -/
def extract_macros_from_config {Mac : Type} (J : Jinja2 Mac) (config : Option FluffConfig) : Except String (List (String × Mac)) :=
  let loaded_context : List (String × PyValue) :=
    match config with
    | Option.some c => (c.get_section [templater_selector, "jinja", "macros"]).getD []
    | Option.none => []
  loadMacros J loaded_context []

/-- The undeclared variables the static analysis reports after discarding
every name resolvable from the built context. -/
def undefVars {Mac : Type} (J : Jinja2 Mac) (self : PythonTemplateInterface) (config : Option FluffConfig) (ast : JNode) : List String :=
  (J.findUndeclared ast).filter (fun v => ((get_context "jinja" self config) v).isNone)

/-- JinjaTemplateInterface.process: extract configured macros into the
engine globals (exceptions propagate), compile the template with from_string
(a syntax error propagates uncaught), build the live context, parse for
static analysis (a failure there is re-raised as a SQLTemplaterError naming
the cause), crawl the tree for undefined references when any exist, then
render: a successful render returns the text with the collected violations,
a render failure is caught and returned as no text plus one appended fatal
violation naming the cause and carrying no position. -/
def JinjaTemplateInterface.process {Mac : Type} (J : Jinja2 Mac) (self : PythonTemplateInterface) (in_str : String) (config : Option FluffConfig) : Except PyExc (Option String × List SQLTemplaterError) :=
  match extract_macros_from_config J config with
  | Except.error e => Except.error (PyExc.jinjaError e)
  | Except.ok mctx =>
    match J.fromString in_str with
    | Except.error e => Except.error (PyExc.jinjaError e)
    | Except.ok _ =>
      let live_context := get_context "jinja" self config
      match J.parse in_str with
      | Except.error err =>
        Except.error (PyExc.templaterError
          { msg := "Failure in identifying Jinja variables: " ++ err ++ "."
            pos := Option.none })
      | Except.ok ast =>
        let undefined_variables := undefVars J self config ast
        let cres : Except PyExc (List SQLTemplaterError) :=
          match undefined_variables with
          | [] => Except.ok []
          | _ :: _ => crawlTree in_str undefined_variables ast
        match cres with
        | Except.error e => Except.error e
        | Except.ok violations =>
          match J.render mctx in_str live_context with
          | Except.ok out_str => Except.ok (Option.some out_str, violations)
          | Except.error err =>
            Except.ok (Option.none, violations ++
              [{ msg := "Unrecoverable failure in Jinja templating: " ++ err
                    ++ ". Have you configured your variables? https://docs.sqlfluff.com/en/latest/configuration.html"
                 pos := Option.none }])

/-- Whether a process result is a returned pair at all (as opposed to a
propagating exception). -/
def returnsPair : Except PyExc (Option String × List SQLTemplaterError) → Bool
  | Except.ok _ => true
  | Except.error _ => false

/-- Whether an exception is a raised SQLTemplaterError. -/
def isTemplaterErrorExc : PyExc → Bool
  | PyExc.templaterError _ => true
  | _ => false

/-- A concrete config whose python context section binds x to the text 2. -/
def cfgC1 : FluffConfig :=
  ⟨fun path =>
    if path = [templater_selector, "python", "context"] then Option.some [("x", PyValue.str "2")]
    else Option.none⟩

/-- A template with an unmatched if block tag, on which the jinja engine
raises a syntax error. -/
def unmatchedIfTemplate : String := "\x7b% if x %\x7d"

/-- A template referencing the single undefined variable foo. -/
def fooTemplate : String := "SELECT \x7b\x7b foo \x7d\x7d FROM tbl"

/-- Models the jinja2 engine on a syntactically malformed template such as
an unmatched if block: compiling raises a TemplateSyntaxError, and the
static-analysis parse would raise the same error. -/
def jinjaSyntaxFailDemo : Jinja2 Unit :=
  { fromString := fun _ => Except.error "unexpected end of template"
    parse := fun _ => Except.error "unexpected end of template"
    findUndeclared := fun _ => []
    extractTemplateMacros := fun _ => Except.ok []
    render := fun _ _ _ => Except.error "not reached" }

/-- Models an engine whose template compilation succeeds but whose
static-analysis parse raises. -/
def jinjaParseFailDemo : Jinja2 Unit :=
  { fromString := fun _ => Except.ok ()
    parse := fun _ => Except.error "expected token end of statement block"
    findUndeclared := fun _ => []
    extractTemplateMacros := fun _ => Except.ok []
    render := fun _ _ _ => Except.ok "" }

/-- Models the jinja2 engine on fooTemplate: parsing succeeds with one Name
node for foo on line 1, static analysis reports foo undeclared, and
rendering succeeds with the undefined reference replaced by nothing. -/
def jinjaOkDemo : Jinja2 Unit :=
  { fromString := fun _ => Except.ok ()
    parse := fun _ => Except.ok (JNode.node (JNodeForest.cons (JNode.name "foo" 1) JNodeForest.nil))
    findUndeclared := fun _ => ["foo"]
    extractTemplateMacros := fun _ => Except.ok []
    render := fun _ _ _ => Except.ok "SELECT  FROM tbl" }

/-- Models an engine whose parse and analysis succeed but whose rendering
raises a runtime error. -/
def jinjaRenderFailDemo : Jinja2 Unit :=
  { fromString := fun _ => Except.ok ()
    parse := fun _ => Except.ok (JNode.node JNodeForest.nil)
    findUndeclared := fun _ => []
    extractTemplateMacros := fun _ => Except.ok []
    render := fun _ _ _ => Except.error "division by zero" }

/-- The value stored for a key is untouched by inference iterations over
other keys. -/
theorem inferFold_notMem : ∀ (ks : List String) (lc : Ctx) (k : String), k ∉ ks →
    (ks.foldl inferStep lc) k = lc k := by
  intro ks
  induction ks with
  | nil => intro lc k _; rfl
  | cons a t ih =>
    intro lc k h
    have hka : k ≠ a := fun he => h (he ▸ List.mem_cons_self a t)
    have hkt : k ∉ t := fun ht => h (List.mem_cons_of_mem a ht)
    simp only [List.foldl_cons]
    rw [ih _ _ hkt]
    simp [inferStep, setK, hka]

/-- After the inference loop over distinct keys, a key of the loop carries
the inferred version of the value it had before the loop. -/
theorem inferFold_mem : ∀ (ks : List String) (lc : Ctx) (k : String), ks.Nodup → k ∈ ks →
    (ks.foldl inferStep lc) k = Option.some (infer_type (pyGet lc k)) := by
  intro ks
  induction ks with
  | nil => intro lc k _ h; exact absurd h (List.not_mem_nil k)
  | cons a t ih =>
    intro lc k hnd hk
    have hna : a ∉ t := (List.nodup_cons.mp hnd).1
    have hnd2 : t.Nodup := (List.nodup_cons.mp hnd).2
    simp only [List.foldl_cons]
    by_cases hka : k = a
    · subst hka
      rw [inferFold_notMem t _ k hna]
      simp [inferStep, setK]
    · have hkt : k ∈ t := by
        rcases List.mem_cons.mp hk with h | h
        · exact absurd h hka
        · exact h
      rw [ih _ _ hnd2 hkt]
      have hsame : pyGet (inferStep lc a) k = pyGet lc k := by
        simp [inferStep, pyGet, setK, hka]
      rw [hsame]

/-- A successful crawlName result is exactly the expected violation of the
occurrence. -/
theorem crawlName_ok (raw n : String) (line_no : Nat) (v : SQLTemplaterError)
    (h : crawlName raw n line_no = Except.ok v) : v = expectedV raw (n, line_no) := by
  cases hl : (splitNl raw).get? (line_no - 1) with
  | none =>
    simp only [crawlName, hl] at h
    exact Except.noConfusion h
  | some line =>
    cases hf : strFind line n with
    | none =>
      simp only [crawlName, hl, hf] at h
      exact Except.noConfusion h
    | some idx =>
      simp only [crawlName, hl, hf, Except.ok.injEq] at h
      rw [← h]
      simp only [expectedV, hl, hf, Option.getD_some]

mutual
/-- A successful crawl of a tree yields exactly one expected violation per
matching Name occurrence, in traversal order. -/
theorem crawlTree_ok_eq : ∀ (raw : String) (vars : List String) (t : JNode) (vs : List SQLTemplaterError),
    crawlTree raw vars t = Except.ok vs → vs = (nameOccs vars t).map (expectedV raw)
  | raw, vars, JNode.name n line_no, vs, h => by
    by_cases hm : n ∈ vars
    · cases hc : crawlName raw n line_no with
      | error e =>
        simp only [crawlTree, if_pos hm, hc] at h
        exact Except.noConfusion h
      | ok v =>
        simp only [crawlTree, if_pos hm, hc, Except.ok.injEq] at h
        rw [← h, crawlName_ok raw n line_no v hc]
        simp [nameOccs, if_pos hm]
    · simp only [crawlTree, if_neg hm, Except.ok.injEq] at h
      rw [← h]
      simp [nameOccs, if_neg hm]
  | raw, vars, JNode.node cs, vs, h => by
    simp only [crawlTree] at h
    simpa [nameOccs] using crawlForest_ok_eq raw vars cs vs h
/-- A successful crawl of a forest yields the concatenation of expected
violations of the children. -/
theorem crawlForest_ok_eq : ∀ (raw : String) (vars : List String) (ts : JNodeForest) (vs : List SQLTemplaterError),
    crawlForest raw vars ts = Except.ok vs → vs = (nameOccsForest vars ts).map (expectedV raw)
  | raw, vars, JNodeForest.nil, vs, h => by
    simp only [crawlForest, Except.ok.injEq] at h
    rw [← h]
    simp [nameOccsForest]
  | raw, vars, JNodeForest.cons t ts, vs, h => by
    cases ha : crawlTree raw vars t with
    | error e =>
      simp only [crawlForest, ha] at h
      exact Except.noConfusion h
    | ok a =>
      cases hb : crawlForest raw vars ts with
      | error e =>
        simp only [crawlForest, ha, hb] at h
        exact Except.noConfusion h
      | ok b =>
        simp only [crawlForest, ha, hb, Except.ok.injEq] at h
        rw [← h, crawlTree_ok_eq raw vars t a ha, crawlForest_ok_eq raw vars ts b hb]
        simp [nameOccsForest]
end

mutual
/-- With no variable names to search, the crawl of a tree finds nothing and
raises nothing. -/
theorem crawlTree_nil_vars : ∀ (raw : String) (t : JNode), crawlTree raw [] t = Except.ok []
  | raw, JNode.name n line_no => by simp [crawlTree]
  | raw, JNode.node cs => by
    simp only [crawlTree]
    exact crawlForest_nil_vars raw cs
/-- With no variable names to search, the crawl of a forest finds nothing. -/
theorem crawlForest_nil_vars : ∀ (raw : String) (ts : JNodeForest), crawlForest raw [] ts = Except.ok []
  | raw, JNodeForest.nil => by simp [crawlForest]
  | raw, JNodeForest.cons t ts => by
    simp [crawlForest, crawlTree_nil_vars raw t, crawlForest_nil_vars raw ts]
end

/-- When every field of the parts is bound in the context, substitution
succeeds. -/
theorem renderParts_ok_of_found (ctx : Ctx) : ∀ (ps : List FmtPart) (acc : String),
    (∀ f ∈ ps.filterMap fieldName?, (ctx f).isSome) →
    ∃ out, renderParts ctx ps acc = Except.ok out := by
  intro ps
  induction ps with
  | nil => intro acc _; exact ⟨acc, rfl⟩
  | cons p t ih =>
    intro acc h
    cases p with
    | lit l =>
      have h2 : ∀ f ∈ t.filterMap fieldName?, (ctx f).isSome := by
        intro f hf
        exact h f (by simpa [fieldName?] using hf)
      exact ih (acc ++ l) h2
    | field f =>
      have hf : (ctx f).isSome := h f (by simp [fieldName?])
      rcases Option.isSome_iff_exists.mp hf with ⟨v, hv⟩
      have h2 : ∀ g ∈ t.filterMap fieldName?, (ctx g).isSome := by
        intro g hg
        exact h g (by simp [fieldName?, hg])
      rcases ih (acc ++ pyStr v) h2 with ⟨out, hout⟩
      exact ⟨out, by simp [renderParts, hv, hout]⟩

/-- When some field of the parts is unbound, substitution raises KeyError for
the first unbound field. -/
theorem renderParts_err_of_missing (ctx : Ctx) : ∀ (ps : List FmtPart) (acc : String),
    (∃ f ∈ ps.filterMap fieldName?, (ctx f).isNone) →
    ∃ g, g ∈ ps.filterMap fieldName? ∧ (ctx g).isNone
      ∧ renderParts ctx ps acc = Except.error (PyExc.keyError g) := by
  intro ps
  induction ps with
  | nil => intro acc h; simp at h
  | cons p t ih =>
    intro acc h
    cases p with
    | lit l =>
      have h2 : ∃ f ∈ t.filterMap fieldName?, (ctx f).isNone := by
        simpa [fieldName?] using h
      rcases ih (acc ++ l) h2 with ⟨g, hg, hn, hr⟩
      exact ⟨g, by simpa [fieldName?] using hg, hn, by simpa [renderParts] using hr⟩
    | field f =>
      cases hc : ctx f with
      | none =>
        exact ⟨f, by simp [fieldName?], by simp [hc], by simp [renderParts, hc]⟩
      | some v =>
        have h2 : ∃ g ∈ t.filterMap fieldName?, (ctx g).isNone := by
          rcases h with ⟨g, hg, hn⟩
          rcases (by simpa [fieldName?] using hg : g = f ∨ g ∈ t.filterMap fieldName?) with he | ht
          · subst he
            rw [hc] at hn
            simp at hn
          · exact ⟨g, ht, hn⟩
        rcases ih (acc ++ pyStr v) h2 with ⟨g, hg, hn, hr⟩
        exact ⟨g, by simp [fieldName?, hg], hn, by simp [renderParts, hc, hr]⟩

/-- Claim C1 (corrected): for a key present both in the configuration context
section and in the caller overrides, the override value wins over the ignored
configuration value, but the type-inference loop of get_context runs over the
keys of the loaded section and therefore applies infer_type to the override
value; the override value appears verbatim only for keys absent from the
loaded section. -/
theorem c1_override_inference (ov ld : List (String × PyValue)) (cfg : FluffConfig)
    (hc : cfg.get_section [templater_selector, "python", "context"] = Option.some ld)
    (hnd : (keysOf ld).Nodup) :
    (∀ (k : String) (vO : PyValue), k ∈ keysOf ld → ctxOfList ov k = Option.some vO →
      get_context "python" ⟨ov⟩ (Option.some cfg) k = Option.some (infer_type vO))
    ∧ (∀ (k : String) (vO : PyValue), k ∉ keysOf ld → ctxOfList ov k = Option.some vO →
      get_context "python" ⟨ov⟩ (Option.some cfg) k = Option.some vO) := by
  constructor
  · intro k vO hk ho
    simp only [get_context, hc, Option.getD_some]
    rw [inferFold_mem _ _ _ hnd hk]
    simp [pyGet, dictUpdate, ho]
  · intro k vO hk ho
    simp only [get_context, hc, Option.getD_some]
    rw [inferFold_notMem _ _ _ hk]
    simp [dictUpdate, ho]

/-- Claim C1 witness: with the configuration binding x to the text 2 and the
override binding x to the text 3, the built context stores the inferred
override value. -/
theorem c1_witness :
    get_context "python" ⟨[("x", PyValue.str "3")]⟩ (Option.some cfgC1) "x" =
      Option.some (infer_type (PyValue.str "3")) :=
  (c1_override_inference [("x", PyValue.str "3")] [("x", PyValue.str "2")] cfgC1 rfl
    (by decide)).1 "x" (PyValue.str "3") (by decide) rfl

/-- Claim C1 counterexample: the claimed verbatim override fails: the context
holds the integer 3 inferred from the override text 3, not the text itself. -/
theorem c1_counterexample :
    get_context "python" ⟨[("x", PyValue.str "3")]⟩ (Option.some cfgC1) "x" =
      Option.some (PyValue.int 3)
    ∧ PyValue.int 3 ≠ PyValue.str "3" :=
  ⟨rfl, fun h => PyValue.noConfusion h⟩

/-- Claim C2 (corrected): when the initial template compilation fails, the
engine templater does not capture the failure: process propagates the
engine exception and returns no pair at all (in particular it never returns
rendered text). -/
theorem c2_syntax_error_propagates {Mac : Type} (J : Jinja2 Mac) (self : PythonTemplateInterface)
    (in_str : String) (config : Option FluffConfig) (mctx : List (String × Mac)) (e : String)
    (h1 : extract_macros_from_config J config = Except.ok mctx)
    (h2 : J.fromString in_str = Except.error e) :
    JinjaTemplateInterface.process J self in_str config = Except.error (PyExc.jinjaError e) := by
  simp [JinjaTemplateInterface.process, h1, h2]

/-- Claim C2 witness: on the unmatched-if template under the modelled engine,
process raises the engine syntax error. -/
theorem c2_witness :
    JinjaTemplateInterface.process jinjaSyntaxFailDemo (PythonTemplateInterface.init Option.none)
      unmatchedIfTemplate Option.none = Except.error (PyExc.jinjaError "unexpected end of template") :=
  c2_syntax_error_propagates jinjaSyntaxFailDemo (PythonTemplateInterface.init Option.none)
    unmatchedIfTemplate Option.none [] "unexpected end of template" rfl rfl

/-- Claim C2 counterexample: on the unmatched-if template, process does not
return a pair of none and violations: it returns no pair at all. -/
theorem c2_counterexample :
    returnsPair (JinjaTemplateInterface.process jinjaSyntaxFailDemo
      (PythonTemplateInterface.init Option.none) unmatchedIfTemplate Option.none) = false := rfl

/-- Claim C3 (corrected): a failure of the static-analysis parse (after a
successful compilation) raises a SQLTemplaterError naming the cause and
aborts process with no text and no diagnostics; a failure of the initial
template compilation also aborts process with nothing produced, but
propagates the engine exception itself rather than a SQLTemplaterError. -/
theorem c3_parse_failure_behaviour {Mac : Type} (J : Jinja2 Mac) (self : PythonTemplateInterface)
    (in_str : String) (config : Option FluffConfig) (mctx : List (String × Mac)) (err e : String) :
    (extract_macros_from_config J config = Except.ok mctx →
      J.fromString in_str = Except.ok () →
      J.parse in_str = Except.error err →
      JinjaTemplateInterface.process J self in_str config = Except.error (PyExc.templaterError
        { msg := "Failure in identifying Jinja variables: " ++ err ++ "."
          pos := Option.none }))
    ∧ (extract_macros_from_config J config = Except.ok mctx →
      J.fromString in_str = Except.error e →
      JinjaTemplateInterface.process J self in_str config = Except.error (PyExc.jinjaError e)) := by
  constructor
  · intro h1 h2 h3
    simp [JinjaTemplateInterface.process, h1, h2, h3]
  · intro h1 h2
    simp [JinjaTemplateInterface.process, h1, h2]

/-- Claim C3 witness: with a modelled engine whose static-analysis parse
fails, process raises the SQLTemplaterError naming the cause. -/
theorem c3_witness :
    JinjaTemplateInterface.process jinjaParseFailDemo (PythonTemplateInterface.init Option.none)
      "SELECT 1" Option.none = Except.error (PyExc.templaterError
        { msg := "Failure in identifying Jinja variables: expected token end of statement block."
          pos := Option.none }) :=
  (c3_parse_failure_behaviour jinjaParseFailDemo (PythonTemplateInterface.init Option.none)
    "SELECT 1" Option.none [] "expected token end of statement block" "").1 rfl rfl rfl

/-- Claim C3 counterexample: the initial-parse failure does not raise a
SQLTemplaterError: the exception process raises on the unmatched-for
template is the engine error itself. -/
theorem c3_counterexample :
    JinjaTemplateInterface.process jinjaSyntaxFailDemo (PythonTemplateInterface.init Option.none)
      "\x7b% for x %\x7d" Option.none = Except.error (PyExc.jinjaError "unexpected end of template")
    ∧ isTemplaterErrorExc (PyExc.jinjaError "unexpected end of template") = false :=
  ⟨rfl, rfl⟩

/-- Claim C4 (corrected): infer_type parses the text 3 to the integer 3, the
Python boolean literals True and False to booleans, a two element bracketed
list to a two element list value, leaves non-literal text such as
not-a-literal unchanged, never raises, and returns any text the literal
parser rejects unchanged; the lowercase texts true and false are not Python
literals and stay strings. -/
theorem c4_infer_type_behaviour :
    infer_type (PyValue.str "3") = PyValue.int 3
    ∧ infer_type (PyValue.str "True") = PyValue.bool true
    ∧ infer_type (PyValue.str "False") = PyValue.bool false
    ∧ infer_type (PyValue.str "true") = PyValue.str "true"
    ∧ infer_type (PyValue.str "false") = PyValue.str "false"
    ∧ infer_type (PyValue.str "[1, 2]") =
        PyValue.list (PyValueList.cons (PyValue.int 1) (PyValueList.cons (PyValue.int 2) PyValueList.nil))
    ∧ (PyValueList.cons (PyValue.int 1) (PyValueList.cons (PyValue.int 2) PyValueList.nil)).length = 2
    ∧ infer_type (PyValue.str "not-a-literal") = PyValue.str "not-a-literal"
    ∧ ∀ s : String, litEval s = Option.none → infer_type (PyValue.str s) = PyValue.str s := by
  refine ⟨rfl, rfl, rfl, rfl, rfl, rfl, rfl, rfl, ?_⟩
  intro s h
  simp [infer_type, h]

/-- Claim C4 witness: the malformed literal text with an unclosed bracket is
rejected by the literal parser and passes through infer_type unchanged. -/
theorem c4_witness :
    litEval "[1, 2" = Option.none ∧ infer_type (PyValue.str "[1, 2") = PyValue.str "[1, 2" :=
  ⟨rfl, c4_infer_type_behaviour.2.2.2.2.2.2.2.2 "[1, 2" rfl⟩

/-- Claim C4 counterexample: the lowercase text true does not infer to a
boolean: it stays the string true (ast.literal_eval only accepts the
capitalized Python literals). -/
theorem c4_counterexample :
    infer_type (PyValue.str "true") = PyValue.str "true"
    ∧ PyValue.str "true" ≠ PyValue.bool true
    ∧ PyValue.str "true" ≠ PyValue.bool false
    ∧ infer_type (PyValue.str "false") = PyValue.str "false" :=
  ⟨rfl, fun h => PyValue.noConfusion h, fun h => PyValue.noConfusion h, rfl⟩

/-- Claim C5 (confirmed): a rendering failure after a successful parse is
caught: process appends exactly one fatal violation with no position whose
message embeds the underlying cause, keeps the previously collected
undefined-variable violations, and returns none as text with no exception. -/
theorem c5_render_failure_captured {Mac : Type} (J : Jinja2 Mac) (self : PythonTemplateInterface)
    (in_str : String) (config : Option FluffConfig) (mctx : List (String × Mac)) (ast : JNode)
    (vs : List SQLTemplaterError) (err : String)
    (h1 : extract_macros_from_config J config = Except.ok mctx)
    (h2 : J.fromString in_str = Except.ok ())
    (h3 : J.parse in_str = Except.ok ast)
    (hv : crawlTree in_str (undefVars J self config ast) ast = Except.ok vs)
    (hr : J.render mctx in_str (get_context "jinja" self config) = Except.error err) :
    JinjaTemplateInterface.process J self in_str config =
      Except.ok (Option.none, vs ++
        [{ msg := "Unrecoverable failure in Jinja templating: " ++ err
              ++ ". Have you configured your variables? https://docs.sqlfluff.com/en/latest/configuration.html"
           pos := Option.none }]) := by
  cases hu : undefVars J self config ast with
  | nil =>
    rw [hu, crawlTree_nil_vars in_str ast] at hv
    have hvs : vs = [] := by
      injection hv with h4
      exact h4.symm
    subst hvs
    simp [JinjaTemplateInterface.process, h1, h2, h3, hu, hr]
  | cons v0 rest =>
    rw [hu] at hv
    simp [JinjaTemplateInterface.process, h1, h2, h3, hu, hv, hr]

/-- Claim C5 witness: a modelled render failure yields none plus the single
fatal violation, with no exception. -/
theorem c5_witness :
    JinjaTemplateInterface.process jinjaRenderFailDemo (PythonTemplateInterface.init Option.none)
      "SELECT 1" Option.none =
    Except.ok (Option.none,
      [{ msg := "Unrecoverable failure in Jinja templating: division by zero. Have you configured your variables? https://docs.sqlfluff.com/en/latest/configuration.html"
         pos := Option.none }]) := by
  have h := c5_render_failure_captured jinjaRenderFailDemo (PythonTemplateInterface.init Option.none)
    "SELECT 1" Option.none [] (JNode.node JNodeForest.nil) [] "division by zero" rfl rfl rfl rfl rfl
  exact h

/-- Claim C6 (confirmed): for the undefined variables found by static
analysis, process emits one violation per Name occurrence, in traversal
order; each carries the message naming the variable and a position whose
line is the node metadata line, whose column is one plus the index of the
first occurrence of the identifier in that source line, and whose character
position is the sum over all preceding lines of their length plus one for
the newline, plus the column. -/
theorem c6_undefined_variable_positions {Mac : Type} (J : Jinja2 Mac) (self : PythonTemplateInterface)
    (in_str : String) (config : Option FluffConfig) (mctx : List (String × Mac)) (ast : JNode)
    (vs : List SQLTemplaterError) (out : String)
    (h1 : extract_macros_from_config J config = Except.ok mctx)
    (h2 : J.fromString in_str = Except.ok ())
    (h3 : J.parse in_str = Except.ok ast)
    (hv : crawlTree in_str (undefVars J self config ast) ast = Except.ok vs)
    (hr : J.render mctx in_str (get_context "jinja" self config) = Except.ok out) :
    JinjaTemplateInterface.process J self in_str config = Except.ok (Option.some out, vs)
    ∧ vs = (nameOccs (undefVars J self config ast) ast).map (expectedV in_str)
    ∧ ∀ (n : String) (line_no idx : Nat) (line : String),
        (splitNl in_str).get? (line_no - 1) = Option.some line →
        strFind line n = Option.some idx →
        expectedV in_str (n, line_no) =
          { msg := "Undefined jinja template variable: \x27" ++ n ++ "\x27"
            pos := Option.some
              { statement_index := Option.none
                line := line_no
                col := idx + 1
                charpos := (((splitNl in_str).take (line_no - 1)).map (fun l => l.length + 1)).sum + (idx + 1) } } := by
  refine ⟨?_, crawlTree_ok_eq in_str _ ast vs hv, ?_⟩
  · cases hu : undefVars J self config ast with
    | nil =>
      rw [hu, crawlTree_nil_vars in_str ast] at hv
      have hvs : vs = [] := by
        injection hv with h4
        exact h4.symm
      subst hvs
      simp [JinjaTemplateInterface.process, h1, h2, h3, hu, hr]
    | cons v0 rest =>
      rw [hu] at hv
      simp [JinjaTemplateInterface.process, h1, h2, h3, hu, hv, hr]
  · intro n line_no idx line hl hf
    simp only [expectedV, hl, hf, Option.getD_some]

/-- Claim C6 witness: on the template referencing only foo, process returns
the rendered text and exactly one violation pointing at the first character
of foo with matching line, column and absolute position. -/
theorem c6_witness :
    JinjaTemplateInterface.process jinjaOkDemo (PythonTemplateInterface.init Option.none)
      fooTemplate Option.none =
    Except.ok (Option.some "SELECT  FROM tbl",
      [{ msg := "Undefined jinja template variable: \x27foo\x27"
         pos := Option.some { statement_index := Option.none, line := 1, col := 11, charpos := 11 } }]) :=
  (c6_undefined_variable_positions jinjaOkDemo (PythonTemplateInterface.init Option.none)
    fooTemplate Option.none []
    (JNode.node (JNodeForest.cons (JNode.name "foo" 1) JNodeForest.nil))
    [{ msg := "Undefined jinja template variable: \x27foo\x27"
       pos := Option.some { statement_index := Option.none, line := 1, col := 11, charpos := 11 } }]
    "SELECT  FROM tbl" rfl rfl rfl rfl rfl).1

/-- Claim C7 (confirmed): the raw templater process is the identity on every
input string, returning it with an empty violation list, for any filename
and config, and cannot raise since it is a total function into pairs. -/
theorem c7_raw_identity :
    ∀ (s : String) (fname : Option String) (config : Option FluffConfig),
      RawTemplateInterface.process s fname config = (s, []) :=
  fun _ _ _ => rfl

/-- Claim C8 (confirmed): when the format fields of the input all resolve in
the built context, the python templater returns the substituted text with an
empty diagnostics list; when some field is missing, it raises a
SQLTemplaterError whose message embeds the repr-quoted missing name and the
configuration hint. -/
theorem c8_python_process (self : PythonTemplateInterface) (config : Option FluffConfig)
    (s : String) (fs : List String)
    (hp : pyFields s = Option.some fs) :
    ((∀ f ∈ fs, ((get_context "python" self config) f).isSome) →
      ∃ out, pyFormat s (get_context "python" self config) = Except.ok out
        ∧ PythonTemplateInterface.process self s config = Except.ok (out, []))
    ∧ ((∃ f ∈ fs, ((get_context "python" self config) f).isNone) →
      ∃ g, g ∈ fs ∧ ((get_context "python" self config) g).isNone
        ∧ PythonTemplateInterface.process self s config = Except.error (PyExc.templaterError
            { msg := "Failure in Python templating: \x27" ++ g ++ "\x27. Have you configured your variables?"
              pos := Option.none })) := by
  cases hpf : parseFmtAux (s.length + 1) s.data with
  | error e =>
    simp only [pyFields, hpf] at hp
    exact Option.noConfusion hp
  | ok ps =>
    simp only [pyFields, hpf, Option.some.injEq] at hp
    subst hp
    constructor
    · intro hall
      rcases renderParts_ok_of_found (get_context "python" self config) ps "" hall with ⟨out, hout⟩
      refine ⟨out, ?_, ?_⟩
      · simp [pyFormat, hpf, hout]
      · simp [PythonTemplateInterface.process, pyFormat, hpf, hout]
    · intro hmiss
      rcases renderParts_err_of_missing (get_context "python" self config) ps "" hmiss with ⟨g, hg, hn, hr⟩
      refine ⟨g, hg, hn, ?_⟩
      simp [PythonTemplateInterface.process, pyFormat, hpf, hr]

/-- Claim C8 witness: with context binding name to world, the input
substitutes cleanly; with a missing placeholder the process raises the
SQLTemplaterError embedding the missing name. -/
theorem c8_witness :
    (∃ out, PythonTemplateInterface.process ⟨[("name", PyValue.str "world")]⟩ "hello {name}"
        Option.none = Except.ok (out, []))
    ∧ (∃ g, g ∈ ["missing"] ∧ PythonTemplateInterface.process ⟨[("name", PyValue.str "world")]⟩
        "hello {missing}" Option.none = Except.error (PyExc.templaterError
          { msg := "Failure in Python templating: \x27" ++ g ++ "\x27. Have you configured your variables?"
            pos := Option.none })) := by
  constructor
  · obtain ⟨out, _, h2⟩ :=
      (c8_python_process ⟨[("name", PyValue.str "world")]⟩ Option.none "hello {name}" ["name"] rfl).1
        (by decide)
    exact ⟨out, h2⟩
  · obtain ⟨g, hg, _, hp⟩ :=
      (c8_python_process ⟨[("name", PyValue.str "world")]⟩ Option.none "hello {missing}" ["missing"] rfl).2
        ⟨"missing", by decide, by decide⟩
    exact ⟨g, hg, hp⟩

/-- Claim C9 (corrected): instance equality is subclass-based rather than
same-variant: self equals other exactly when the class of other is the class
of self or derives from it, equivalently when the rank of self along the
raw-python-jinja chain is at most the rank of other; it ignores constructor
arguments, is reflexive for every variant, and is not symmetric across
variants. -/
theorem c9_subclass_equality :
    ∀ (a b : TemplaterInstance), templater_eq a b = true ↔ a.cls.rank ≤ b.cls.rank := by
  intro a b
  rcases a with ⟨ca, la⟩
  rcases b with ⟨cb, lb⟩
  cases ca <;> cases cb <;>
    simp [templater_eq, TemplaterVariant.isSubclass, TemplaterVariant.rank]

/-- Claim C9 counterexample: a raw instance equals a jinja instance while a
jinja instance does not equal a raw instance, although the variants differ:
equality is neither same-variant nor symmetric. -/
theorem c9_counterexample :
    templater_eq ⟨TemplaterVariant.raw, []⟩ ⟨TemplaterVariant.jinja, []⟩ = true
    ∧ templater_eq ⟨TemplaterVariant.jinja, []⟩ ⟨TemplaterVariant.raw, []⟩ = false
    ∧ TemplaterVariant.raw ≠ TemplaterVariant.jinja := by
  refine ⟨rfl, rfl, ?_⟩
  intro h
  exact TemplaterVariant.noConfusion h

/-- Claim C10 (confirmed): with no config and no overrides the built context
contains the built-in default binding of test_value to the text __test__, and
the input consisting of that placeholder renders to __test__ with no
diagnostics. -/
theorem c10_default_test_value :
    get_context "python" (PythonTemplateInterface.init Option.none) Option.none "test_value" =
      Option.some (PyValue.str "__test__")
    ∧ PythonTemplateInterface.process (PythonTemplateInterface.init Option.none) "{test_value}"
        Option.none = Except.ok ("__test__", []) :=
  ⟨rfl, rfl⟩
